import Mathlib

/-!
Shallow embedding of `src/04-date-tasks.js` (five standalone date/time
utilities) and verification of its specification claims.

Modelling conventions:
* A JavaScript `Date` object is an epoch-milliseconds instant together with
  the local timezone offset of the environment (millisecond granularity).
  Numbers are idealised as exact integers/rationals: IEEE-754 rounding and
  the ECMAScript `TimeClip` range cut-off (|t| ≤ 8.64e15) are outside the
  model, as is `NaN` propagation for out-of-range constructor arguments.
* Platform primitives used by the source (`Date.parse`, the `Date`
  constructor's calendar normalisation, and the `get*` accessors) are not
  repository code; they are modelled from the ECMAScript specification and
  documented at their definitions.
* Integer division/modulus is written with `Int.ediv`/`Int.emod`
  (floor division and non-negative remainder for the positive divisors used
  here), matching ECMAScript's `floor` / "modulo" operations on time values.
-/

namespace DateTasks

/-- A JavaScript `Date` value: an instant as milliseconds since the Unix
epoch, plus the environment's local-timezone offset in milliseconds
(the amount added to UTC to obtain local time). -/
structure JsDate where
  epochMillis : ℤ
  tzOffsetMillis : ℤ

/-- Models `Date.prototype.getTime`: the epoch-milliseconds time value. -/
def JsDate.getTime (d : JsDate) : ℤ := d.epochMillis

/-- Models `Date.prototype.getUTCHours` (ECMAScript `HourFromTime`):
`floor(t / msPerHour) modulo 24` on the UTC time value. -/
def JsDate.getUTCHours (d : JsDate) : ℤ :=
  (d.epochMillis.ediv 3600000).emod 24

/-- Models `Date.prototype.getMinutes` (ECMAScript `MinFromTime` applied to
`LocalTime(t)`): `floor(local / msPerMinute) modulo 60` where
`local = t + tzOffset`. -/
def JsDate.getMinutes (d : JsDate) : ℤ :=
  ((d.epochMillis + d.tzOffsetMillis).ediv 60000).emod 60

/-- The Gregorian leap-year divisibility rule
`Y%4==0 && (Y%100!=0 || Y%400==0)`; this is also exactly how ECMAScript's
`DaysInYear` decides whether a year has 366 days. -/
def gregorianLeap (y : ℤ) : Bool :=
  decide (y.emod 4 = 0 ∧ (y.emod 100 ≠ 0 ∨ y.emod 400 = 0))

/-- Civil calendar year of a day count (days since 1970-01-01, proleptic
Gregorian); the standard era-based algorithm, used to model ECMAScript
`YearFromTime`. -/
def civilYearFromDays (z0 : ℤ) : ℤ :=
  let z := z0 + 719468
  let era := z.ediv 146097
  let doe := z - era * 146097
  let yoe := (doe - doe.ediv 1460 + doe.ediv 36524 - doe.ediv 146096).ediv 365
  let y := yoe + era * 400
  let doy := doe - (365 * yoe + yoe.ediv 4 - yoe.ediv 100)
  let mp := (5 * doy + 2).ediv 153
  let m := if mp < 10 then mp + 3 else mp - 9
  if m ≤ 2 then y + 1 else y

/-- Models `Date.prototype.getFullYear` (ECMAScript `YearFromTime` applied to
`LocalTime(t)`). -/
def JsDate.getFullYear (d : JsDate) : ℤ :=
  civilYearFromDays ((d.epochMillis + d.tzOffsetMillis).ediv 86400000)

/-- Day count (days since 1970-01-01, proleptic Gregorian) of a civil date
`y-m-d` with `m ∈ [1,12]`; the standard era-based algorithm, used to model
ECMAScript `MakeDay`. -/
def daysFromCivil (y : ℤ) (m d : ℕ) : ℤ :=
  let yAdj : ℤ := if m ≤ 2 then y - 1 else y
  let era := yAdj.ediv 400
  let yoe := yAdj - era * 400
  let mp : ℤ := ((m : ℤ) + 9).emod 12
  let doy := (153 * mp + 2).ediv 5 + (d : ℤ) - 1
  let doe := yoe * 365 + yoe.ediv 4 - yoe.ediv 100 + doy
  era * 146097 + doe - 719468

/-- Epoch milliseconds of the UTC instant `y-m-d h:mi:s` (ECMAScript
`MakeDate(MakeDay(y,m-1,d), MakeTime(h,mi,s,0))`). -/
def toEpochMillis (y : ℤ) (m d h mi s : ℕ) : ℤ :=
  daysFromCivil y m d * 86400000 +
    ((h : ℤ) * 3600000 + (mi : ℤ) * 60000 + (s : ℤ) * 1000)

/-! ### `timeSpanToString` (src/04-date-tasks.js lines 77–95) -/

/-- Lines 79–94 of the source: formats a non-negative millisecond span.
Factored out of `timeSpanToString` (which computes the span on line 78)
so the padding logic can be reasoned about once.  Note the source's padding
guards are `>= 9` (so the value 9 is NOT padded) while the milliseconds
branch pads correctly for all values below 100. -/
def timeSpanMillisToString (time : ℕ) : String :=
  let second := 1000
  let min := 60 * second
  let hourAbs := time / (60 * min)
  let minAbs := (time - hourAbs * 60 * min) / min
  let secAbs := (time - hourAbs * 60 * min - minAbs * min) / second
  let milSecAbs := time - hourAbs * 60 * min - minAbs * min - secAbs * second
  let resHourAbs := if hourAbs ≥ 9 then toString hourAbs else "0" ++ toString hourAbs
  let resMinAbs := if minAbs ≥ 9 then toString minAbs else "0" ++ toString minAbs
  let resSecAbs := if secAbs ≥ 9 then toString secAbs else "0" ++ toString secAbs
  let resMilSecAbs :=
    if milSecAbs < 10 then "00" ++ toString milSecAbs
    else if milSecAbs > 9 ∧ milSecAbs < 100 then "0" ++ toString milSecAbs
    else toString milSecAbs
  resHourAbs ++ ":" ++ resMinAbs ++ ":" ++ resSecAbs ++ "." ++ resMilSecAbs

/-- Function `timeSpanToString` from the source: the absolute difference of the two
time values (line 78: `Math.abs(startDate.getTime() - endDate.getTime())`),
formatted by the code of lines 79–94. -/
def timeSpanToString (startDate endDate : JsDate) : String :=
  let time := (startDate.getTime - endDate.getTime).natAbs
  timeSpanMillisToString time

/-! ### The platform parsing primitive and the two parsers
(src/04-date-tasks.js lines 22–24 and 37–39) -/

/-- Value of a decimal digit character, if it is one. -/
def digitVal (c : Char) : Option ℕ :=
  if c.isDigit then some (c.toNat - 48) else none

/-- Month number (1–12) of a three-letter English month name. -/
def monthFromName (s : String) : Option ℕ :=
  if s = "Jan" then some 1
  else if s = "Feb" then some 2
  else if s = "Mar" then some 3
  else if s = "Apr" then some 4
  else if s = "May" then some 5
  else if s = "Jun" then some 6
  else if s = "Jul" then some 7
  else if s = "Aug" then some 8
  else if s = "Sep" then some 9
  else if s = "Oct" then some 10
  else if s = "Nov" then some 11
  else if s = "Dec" then some 12
  else none

/-- The three-letter English weekday names. -/
def weekdayNames : List String :=
  ["Mon", "Tue", "Wed", "Thu", "Fri", "Sat", "Sun"]

/-- Number of days in a month of a given year (proleptic Gregorian). -/
def daysInMonth (y : ℤ) (m : ℕ) : ℕ :=
  if m = 2 then (if gregorianLeap y then 29 else 28)
  else if m = 4 ∨ m = 6 ∨ m = 9 ∨ m = 11 then 30
  else 31

/-- Range checks shared by both textual formats. -/
def validCivilTime (y : ℤ) (m d h mi s : ℕ) : Bool :=
  decide (1 ≤ m ∧ m ≤ 12 ∧ 1 ≤ d ∧ d ≤ daysInMonth y m ∧ h ≤ 23 ∧ mi ≤ 59 ∧ s ≤ 59)

/-- Two decimal digit characters as a number. -/
def digit2 (a b : Char) : Option ℕ := do
  let x ← digitVal a
  let y ← digitVal b
  some (x * 10 + y)

/-- Four decimal digit characters as a number. -/
def digit4 (a b c d : Char) : Option ℕ := do
  let x ← digit2 a b
  let y ← digit2 c d
  some (x * 100 + y)

/-- Recognises the ISO 8601 date-time shape `YYYY-MM-DDTHH:MM:SSZ`. -/
def parseIsoZ (s : String) : Option ℤ :=
  match s.data with
  | [y1, y2, y3, y4, p1, m1, m2, p2, d1, d2, p3,
     h1, h2, p4, n1, n2, p5, t1, t2, p6] =>
    if p1 = '-' ∧ p2 = '-' ∧ p3 = 'T' ∧ p4 = ':' ∧ p5 = ':' ∧ p6 = 'Z' then do
      let yv ← digit4 y1 y2 y3 y4
      let m ← digit2 m1 m2
      let d ← digit2 d1 d2
      let h ← digit2 h1 h2
      let mi ← digit2 n1 n2
      let sec ← digit2 t1 t2
      let y : ℤ := (yv : ℤ)
      if validCivilTime y m d h mi sec then some (toEpochMillis y m d h mi sec)
      else none
    else none
  | _ => none

/-- Recognises the RFC 2822 date-time shape `Www, DD Mon YYYY HH:MM:SS GMT`. -/
def parseRfcGmt (s : String) : Option ℤ :=
  match s.data with
  | [w1, w2, w3, p1, p2, d1, d2, p3, mo1, mo2, mo3, p4,
     y1, y2, y3, y4, p5, h1, h2, p6, n1, n2, p7, t1, t2, p8, g1, g2, g3] =>
    if p1 = ',' ∧ p2 = ' ' ∧ p3 = ' ' ∧ p4 = ' ' ∧ p5 = ' ' ∧ p6 = ':' ∧ p7 = ':' ∧
        p8 = ' ' ∧ g1 = 'G' ∧ g2 = 'M' ∧ g3 = 'T' ∧
        weekdayNames.contains (String.mk [w1, w2, w3]) then do
      let m ← monthFromName (String.mk [mo1, mo2, mo3])
      let d ← digit2 d1 d2
      let yv ← digit4 y1 y2 y3 y4
      let h ← digit2 h1 h2
      let mi ← digit2 n1 n2
      let sec ← digit2 t1 t2
      let y : ℤ := (yv : ℤ)
      if validCivilTime y m d h mi sec then some (toEpochMillis y m d h mi sec)
      else none
    else none
  | _ => none

/-- Modelled from the spec: the single platform date-parsing primitive
(`Date.parse`) that both repository parsers delegate to; its implementation
is not part of the repository.  Per the spec (§4.1, §4.2, §7) it maps a
string conforming to ISO 8601 or RFC 2822 date-time syntax to the
corresponding instant and any other string to the invalid-date sentinel
(modelled as `none`), never raising an error.  The model covers the
seconds-resolution UTC shapes of the spec's examples
(`YYYY-MM-DDTHH:MM:SSZ` and `Www, DD Mon YYYY HH:MM:SS GMT`); all other
strings are treated as non-conforming. -/
def DateParse (s : String) : Option ℤ :=
  match parseIsoZ s with
  | some t => some t
  | none => parseRfcGmt s

/-- Function `parseDataFromRfc2822` from the source (line 23): `return Date.parse(value);`. -/
def parseDataFromRfc2822 (value : String) : Option ℤ := DateParse value

/-- Function `parseDataFromIso8601` from the source (line 38): `return Date.parse(value);`. -/
def parseDataFromIso8601 (value : String) : Option ℤ := DateParse value

/-! ### `isLeapYear` (src/04-date-tasks.js lines 56–59) -/

/-- Models the month index observed by
`new Date(y, 1, 29).getMonth()` (source line 57).  Per the ECMAScript `Date`
constructor: a year argument in the inclusive range 0–99 is replaced by
`1900 + y`; `MakeDay(yr, 1, 29)` lands in February (month index 1) exactly
when `DaysInYear(yr) = 366`, i.e. when `gregorianLeap yr`, and otherwise
normalises to March 1 (month index 2).  The `TimeClip` range cut-off is
outside the model (see the header). -/
def newDateFeb29Month (y : ℤ) : ℤ :=
  let yr := if 0 ≤ y ∧ y ≤ 99 then y + 1900 else y
  if gregorianLeap yr then 1 else 2

/-- Function `isLeapYear` from the source (lines 56–59):
`const dateRes = new Date(date.getFullYear(), 1, 29);`
`return !(dateRes.getMonth() - 1);` — JavaScript `!` on a number is `true`
exactly when the number is `0`. -/
def isLeapYear (date : JsDate) : Bool :=
  let dateRes := newDateFeb29Month date.getFullYear
  decide (dateRes - 1 = 0)

/-! ### `angleBetweenClockHands` (src/04-date-tasks.js lines 114–121) -/

/-- Models `Math.abs` on (idealised) numbers. -/
def mathAbs (q : ℚ) : ℚ := if q < 0 then -q else q

/-- Lines 115–119 of the source: the fraction of a straight angle between
the hands, as an exact rational (the source computes it in floating point
and multiplies by π once at the end, line 120). -/
def clockCoeff (hourDate minV : ℤ) : ℚ :=
  let hours : ℚ := if hourDate > 12 then mathAbs ((hourDate : ℚ) - 12) else mathAbs (hourDate : ℚ)
  let result : ℚ := mathAbs ((1 / 2 : ℚ) * (60 * hours - 11 * (minV : ℚ)))
  if result > 180 then mathAbs (360 - result) / 180 else result / 180

/-- Function `angleBetweenClockHands` from the source: reads the UTC hour
(line 115) and the local minute (line 117), and returns `resRad * Math.PI`
(line 120).  The multiplication by π lives in ℝ; all computational content
is in `clockCoeff`. -/
noncomputable def angleBetweenClockHands (date : JsDate) : ℝ :=
  ((clockCoeff date.getUTCHours date.getMinutes : ℚ) : ℝ) * Real.pi

/-! ### Helper lemmas -/

theorem getUTCHours_nonneg (d : JsDate) : 0 ≤ d.getUTCHours :=
  Int.emod_nonneg _ (by norm_num)

theorem getUTCHours_le (d : JsDate) : d.getUTCHours ≤ 23 := by
  have h := Int.emod_lt_of_pos (d.epochMillis.ediv 3600000) (show (0:ℤ) < 24 by norm_num)
  have h2 := Int.lt_iff_add_one_le.mp h
  unfold JsDate.getUTCHours
  show d.epochMillis.ediv 3600000 % 24 ≤ 23
  linarith

theorem getMinutes_nonneg (d : JsDate) : 0 ≤ d.getMinutes :=
  Int.emod_nonneg _ (by norm_num)

theorem getMinutes_le (d : JsDate) : d.getMinutes ≤ 59 := by
  have h := Int.emod_lt_of_pos ((d.epochMillis + d.tzOffsetMillis).ediv 60000)
    (show (0:ℤ) < 60 by norm_num)
  have h2 := Int.lt_iff_add_one_le.mp h
  unfold JsDate.getMinutes
  show (d.epochMillis + d.tzOffsetMillis).ediv 60000 % 60 ≤ 59
  linarith

theorem mathAbs_nonneg (q : ℚ) : 0 ≤ mathAbs q := by
  unfold mathAbs; split_ifs with h <;> linarith

theorem mathAbs_of_nonneg (q : ℚ) (h : 0 ≤ q) : mathAbs q = q := by
  unfold mathAbs; rw [if_neg (not_lt.mpr h)]

theorem mathAbs_le_of_bounds (q c : ℚ) (h1 : -c ≤ q) (h2 : q ≤ c) : mathAbs q ≤ c := by
  unfold mathAbs; split_ifs with h <;> linarith

/-! ### Theorems for the claims -/

/-- C5: `timeSpanToString` is symmetric in its two arguments: for all
instants `a` and `b`, `timeSpanToString a b = timeSpanToString b a`
(the absolute value of the difference is used, source line 78). -/
theorem timeSpanToString_symm (a b : JsDate) :
    timeSpanToString a b = timeSpanToString b a := by
  show timeSpanMillisToString ((a.getTime - b.getTime).natAbs)
      = timeSpanMillisToString ((b.getTime - a.getTime).natAbs)
  exact congrArg timeSpanMillisToString (by omega)

/-- C6: for every instant `t`, `timeSpanToString t t` (an exact zero
difference) returns the string `"00:00:00.000"`. -/
theorem timeSpanToString_zero_span (t : JsDate) :
    timeSpanToString t t = "00:00:00.000" := by
  show timeSpanMillisToString ((t.getTime - t.getTime).natAbs) = "00:00:00.000"
  rw [sub_self]
  rfl

/-- C1 (code bug): the hours, minutes and seconds fields are NOT always
zero-padded to width 2: the padding guards on source lines 85–87 read
`>= 9` instead of `>= 10`, so a field whose value is exactly 9 is rendered
as a single character.  At a difference of 9h 9m 9s the code produces
`"9:9:9.000"` instead of the documented `"09:09:09.000"`. -/
theorem timeSpanToString_padding_failure :
    timeSpanToString ⟨32949000, 0⟩ ⟨0, 0⟩ = "9:9:9.000" := by decide

/-- C9: `parseDataFromRfc2822` on `"Tue, 26 Jan 2016 13:48:02 GMT"` yields
the instant 2016-01-26T13:48:02Z, and `parseDataFromIso8601` on
`"2016-01-19T08:07:37Z"` yields the instant 2016-01-19T08:07:37Z
(also written out as the epoch-millisecond values of those instants). -/
theorem parsers_example_instants :
    parseDataFromRfc2822 "Tue, 26 Jan 2016 13:48:02 GMT"
        = some (toEpochMillis 2016 1 26 13 48 2) ∧
    toEpochMillis 2016 1 26 13 48 2 = 1453816082000 ∧
    parseDataFromIso8601 "2016-01-19T08:07:37Z"
        = some (toEpochMillis 2016 1 19 8 7 37) ∧
    toEpochMillis 2016 1 19 8 7 37 = 1453190857000 := by
  refine ⟨by decide, by decide, by decide, by decide⟩

/-- C10: `parseDataFromRfc2822` and `parseDataFromIso8601` are
extensionally equal: both bodies are `return Date.parse(value);`
(source lines 23 and 38), so every input string is mapped to the same
result. -/
theorem parsers_extensionally_equal (s : String) :
    parseDataFromRfc2822 s = parseDataFromIso8601 s := rfl

/-- C7: for every string the platform primitive rejects, both parsers
return the invalid-date sentinel (`none`) rather than raising an error,
and doing it again gives the same invalid result (the parsers are pure
delegations to `Date.parse`). -/
theorem parsers_malformed_input (s : String) (h : DateParse s = none) :
    parseDataFromRfc2822 s = none ∧ parseDataFromIso8601 s = none ∧
    parseDataFromRfc2822 s = parseDataFromRfc2822 s ∧
    parseDataFromIso8601 s = parseDataFromIso8601 s :=
  ⟨h, h, rfl, rfl⟩

/-- Evaluating the business end of `isLeapYear`:
`!(dateRes.getMonth() - 1)` is the Boolean that decided which month
`new Date(y, 1, 29)` landed in. -/
theorem decide_month_sub_one (b : Bool) :
    decide (((if b then (1:ℤ) else 2) - 1) = 0) = b := by
  cases b <;> decide

/-- Lemma: `isLeapYear` computes the leap rule of the constructor-adjusted year
(`+1900` for year arguments 0–99). -/
theorem isLeapYear_eval (d : JsDate) :
    isLeapYear d = gregorianLeap
      (if 0 ≤ d.getFullYear ∧ d.getFullYear ≤ 99 then d.getFullYear + 1900
       else d.getFullYear) := by
  show decide ((newDateFeb29Month d.getFullYear) - 1 = 0) = _
  unfold newDateFeb29Month
  exact decide_month_sub_one _

/-- C2 (counterexample): the claim "`isLeapYear d` is true iff the year of
`d` satisfies the Gregorian divisibility rule" fails at an instant in the
year 0 (epoch milliseconds −62167219200000 = 0000-01-01T00:00:00Z): year 0
satisfies the rule, but the `Date` constructor turns the year argument 0
into 1900, which is not a leap year, so `isLeapYear` returns `false`. -/
theorem isLeapYear_gregorian_rule_counterexample :
    ¬ ((isLeapYear ⟨-62167219200000, 0⟩ = true) ↔
        ((JsDate.mk (-62167219200000) 0).getFullYear.emod 4 = 0 ∧
          ((JsDate.mk (-62167219200000) 0).getFullYear.emod 100 ≠ 0 ∨
            (JsDate.mk (-62167219200000) 0).getFullYear.emod 400 = 0))) := by
  decide

/-- C2 (amended): for every date value whose year is nonzero, `isLeapYear`
returns true iff the year `Y` satisfies the Gregorian divisibility rule
`Y%4==0 && (Y%100!=0 || Y%400==0)`; in particular it returns true for
instants in the years 2000 and 2012 and false in 1900, 2001 and 2015.
(For years 1–99 the constructor's +1900 offset happens not to change
leapness; year 0 is the single exception, see the counterexample.) -/
theorem isLeapYear_gregorian_rule_amended :
    (∀ d : JsDate, d.getFullYear ≠ 0 →
      ((isLeapYear d = true) ↔
        (d.getFullYear.emod 4 = 0 ∧
          (d.getFullYear.emod 100 ≠ 0 ∨ d.getFullYear.emod 400 = 0)))) ∧
    isLeapYear ⟨946684800000, 0⟩ = true ∧
    isLeapYear ⟨1325376000000, 0⟩ = true ∧
    isLeapYear ⟨-2208988800000, 0⟩ = false ∧
    isLeapYear ⟨978307200000, 0⟩ = false ∧
    isLeapYear ⟨1420070400000, 0⟩ = false := by
  refine ⟨?_, by decide, by decide, by decide, by decide, by decide⟩
  intro d hne
  rw [isLeapYear_eval d]
  unfold gregorianLeap
  by_cases hc : 0 ≤ d.getFullYear ∧ d.getFullYear ≤ 99
  · rw [if_pos hc]
    simp only [decide_eq_true_eq]
    have hmod : ∀ a b : ℤ, a.emod b = a % b := fun _ _ => rfl
    simp only [hmod]
    omega
  · rw [if_neg hc]
    simp only [decide_eq_true_eq]

/-- Witness for the amended C2 at an instant in the year 2000
(2000-01-01T00:00:00Z). -/
theorem isLeapYear_gregorian_rule_amended_witness :
    (JsDate.mk 946684800000 0).getFullYear ≠ 0 ∧
      ((isLeapYear ⟨946684800000, 0⟩ = true) ↔
        ((JsDate.mk 946684800000 0).getFullYear.emod 4 = 0 ∧
          ((JsDate.mk 946684800000 0).getFullYear.emod 100 ≠ 0 ∨
            (JsDate.mk 946684800000 0).getFullYear.emod 400 = 0))) :=
  ⟨by decide, isLeapYear_gregorian_rule_amended.1 ⟨946684800000, 0⟩ (by decide)⟩

/-- Witness for C7 at the spec's example malformed string `"not a date"`. -/
theorem parsers_malformed_input_witness :
    DateParse "not a date" = none ∧
    parseDataFromRfc2822 "not a date" = none ∧
    parseDataFromIso8601 "not a date" = none :=
  ⟨by decide, (parsers_malformed_input "not a date" (by decide)).1,
    (parsers_malformed_input "not a date" (by decide)).2.1⟩

/-- The source's degree-scaled fraction is never negative. -/
theorem clockCoeff_nonneg (h m : ℤ) : 0 ≤ clockCoeff h m := by
  simp only [clockCoeff]
  split_ifs <;> exact div_nonneg (mathAbs_nonneg _) (by norm_num)

/-- The source's degree-scaled fraction is at most 1 when the hour is in
[0,23] and the minute in [0,59], the ranges delivered by the accessors. -/
theorem clockCoeff_le_one (h m : ℤ) (h0 : 0 ≤ h) (h23 : h ≤ 23) (m0 : 0 ≤ m)
    (m59 : m ≤ 59) : clockCoeff h m ≤ 1 := by
  have hq0 : (0 : ℚ) ≤ (h : ℚ) := by exact_mod_cast h0
  have hq23 : (h : ℚ) ≤ 23 := by exact_mod_cast h23
  have mq0 : (0 : ℚ) ≤ (m : ℚ) := by exact_mod_cast m0
  have mq59 : (m : ℚ) ≤ 59 := by exact_mod_cast m59
  simp only [clockCoeff]
  have hrs : ∀ q : ℚ, 0 ≤ q → q ≤ 12 →
      mathAbs ((1 / 2 : ℚ) * (60 * q - 11 * (m : ℚ))) ≤ 360 := by
    intro q hq1 hq2
    apply mathAbs_le_of_bounds <;> linarith
  by_cases hgt : h > 12
  · rw [if_pos hgt]
    have hcast : (12 : ℚ) < (h : ℚ) := by exact_mod_cast hgt
    rw [mathAbs_of_nonneg ((h : ℚ) - 12) (by linarith)]
    have hb := hrs ((h : ℚ) - 12) (by linarith) (by linarith)
    set R := mathAbs ((1 / 2 : ℚ) * (60 * ((h : ℚ) - 12) - 11 * (m : ℚ))) with hR
    have hRnn : 0 ≤ R := mathAbs_nonneg _
    split_ifs with hR180
    · rw [mathAbs_of_nonneg (360 - R) (by linarith)]
      rw [div_le_one (by norm_num)]
      linarith
    · rw [div_le_one (by norm_num)]
      linarith [not_lt.mp hR180]
  · rw [if_neg hgt]
    have hcast : (h : ℚ) ≤ 12 := by exact_mod_cast not_lt.mp hgt
    rw [mathAbs_of_nonneg (h : ℚ) hq0]
    have hb := hrs (h : ℚ) hq0 hcast
    set R := mathAbs ((1 / 2 : ℚ) * (60 * (h : ℚ) - 11 * (m : ℚ))) with hR
    have hRnn : 0 ≤ R := mathAbs_nonneg _
    split_ifs with hR180
    · rw [mathAbs_of_nonneg (360 - R) (by linarith)]
      rw [div_le_one (by norm_num)]
      linarith
    · rw [div_le_one (by norm_num)]
      linarith [not_lt.mp hR180]

/-- C3: for every input instant, the number returned by
`angleBetweenClockHands` lies in the closed interval [0, π]. -/
theorem angleBetweenClockHands_range (d : JsDate) :
    0 ≤ angleBetweenClockHands d ∧ angleBetweenClockHands d ≤ Real.pi := by
  unfold angleBetweenClockHands
  have h1 : 0 ≤ clockCoeff d.getUTCHours d.getMinutes := clockCoeff_nonneg _ _
  have h2 : clockCoeff d.getUTCHours d.getMinutes ≤ 1 :=
    clockCoeff_le_one _ _ (getUTCHours_nonneg d) (getUTCHours_le d)
      (getMinutes_nonneg d) (getMinutes_le d)
  constructor
  · exact mul_nonneg (by exact_mod_cast h1) Real.pi_pos.le
  · calc ((clockCoeff d.getUTCHours d.getMinutes : ℚ) : ℝ) * Real.pi
        ≤ 1 * Real.pi := by
          apply mul_le_mul_of_nonneg_right _ Real.pi_pos.le
          exact_mod_cast h2
    _ = Real.pi := one_mul _

/-- C4: `angleBetweenClockHands` returns 0 for an instant with UTC hour 0
and minute 0, π/2 for UTC hour 3 and minute 0, π for UTC hour 18 and
minute 0, and π/2 for UTC hour 21 and minute 0.  (The minute read is the
local one; all four examples fix it to 0.) -/
theorem angleBetweenClockHands_examples (d : JsDate) :
    (d.getUTCHours = 0 → d.getMinutes = 0 → angleBetweenClockHands d = 0) ∧
    (d.getUTCHours = 3 → d.getMinutes = 0 →
      angleBetweenClockHands d = Real.pi / 2) ∧
    (d.getUTCHours = 18 → d.getMinutes = 0 →
      angleBetweenClockHands d = Real.pi) ∧
    (d.getUTCHours = 21 → d.getMinutes = 0 →
      angleBetweenClockHands d = Real.pi / 2) := by
  refine ⟨fun hh hm => ?_, fun hh hm => ?_, fun hh hm => ?_, fun hh hm => ?_⟩ <;>
    unfold angleBetweenClockHands <;> rw [hh, hm]
  · have hc : clockCoeff 0 0 = 0 := by norm_num [clockCoeff, mathAbs]
    rw [hc]; push_cast; ring
  · have hc : clockCoeff 3 0 = 1 / 2 := by norm_num [clockCoeff, mathAbs]
    rw [hc]; push_cast; ring
  · have hc : clockCoeff 18 0 = 1 := by norm_num [clockCoeff, mathAbs]
    rw [hc]; push_cast; ring
  · have hc : clockCoeff 21 0 = 1 / 2 := by norm_num [clockCoeff, mathAbs]
    rw [hc]; push_cast; ring

/-- Witness for C4 at the concrete UTC instants 1970-01-01 00:00, 03:00,
18:00 and 21:00 (timezone offset 0). -/
theorem angleBetweenClockHands_examples_witness :
    angleBetweenClockHands ⟨0, 0⟩ = 0 ∧
    angleBetweenClockHands ⟨10800000, 0⟩ = Real.pi / 2 ∧
    angleBetweenClockHands ⟨64800000, 0⟩ = Real.pi ∧
    angleBetweenClockHands ⟨75600000, 0⟩ = Real.pi / 2 :=
  ⟨(angleBetweenClockHands_examples ⟨0, 0⟩).1 (by decide) (by decide),
    (angleBetweenClockHands_examples ⟨10800000, 0⟩).2.1 (by decide) (by decide),
    (angleBetweenClockHands_examples ⟨64800000, 0⟩).2.2.1 (by decide) (by decide),
    (angleBetweenClockHands_examples ⟨75600000, 0⟩).2.2.2 (by decide) (by decide)⟩

/-- C8: `angleBetweenClockHands` reads only the UTC hour and the
local-timezone minute of its input: any two instants agreeing on those two
observations get the same angle (the UTC/local asymmetry of lines 115 and
117 is preserved by the embedding). -/
theorem angleBetweenClockHands_reads_only_utc_hour_local_minute
    (d1 d2 : JsDate) (hh : d1.getUTCHours = d2.getUTCHours)
    (hm : d1.getMinutes = d2.getMinutes) :
    angleBetweenClockHands d1 = angleBetweenClockHands d2 := by
  unfold angleBetweenClockHands
  rw [hh, hm]

/-- Witness for C8: 1970-01-01T03:00Z at offset 0 and 1970-01-02T03:00Z at
offset −1h differ in instant and in timezone but share UTC hour 3 and
local minute 0. -/
theorem angleBetweenClockHands_reads_only_utc_hour_local_minute_witness :
    angleBetweenClockHands ⟨10800000, 0⟩
      = angleBetweenClockHands ⟨97200000, -3600000⟩ :=
  angleBetweenClockHands_reads_only_utc_hour_local_minute _ _
    (by decide) (by decide)

end DateTasks
